import Mathlib

/-!
Verification of the kanka Character API client (`src/character.go`).

The file shallowly embeds the Go source: JSON documents become an inductive
`Json` value, Go structs become Lean structures, fallible operations return
`Except Kerr`, and the HTTP collaborator is a record of response functions so
that each service method can also report the list of HTTP calls it performed.
-/

namespace Kanka

/-- A JSON document, the target of `encoding/json` marshalling.  Strings are
kept abstract (no escaping is modelled); numbers are restricted to the integer
fields actually used by the source. -/
inductive Json where
  | str (s : String)
  | int (n : Int)
  | bool (b : Bool)
  | arr (xs : List Json)
  | obj (fields : List (String × Json))
  | null
  deriving Repr

/-- `blank.Is` from the third-party `github.com/Henry-Sarabia/blank` package:
a string is blank when trimming whitespace leaves the empty string, i.e. when
every character is whitespace (true of the empty string). -/
def blankIs (s : String) : Bool :=
  s.toList.all Char.isWhitespace

/-- `SimpleCharacter` (src/character.go lines 38-57): the writable subset of a
character.  Go slices are embedded as Lean lists.  The Go field `Type` is
renamed `type_` because `Type` is reserved in Lean. -/
structure SimpleCharacter where
  name : String
  entry : String
  title : String
  age : String
  sex : String
  type_ : String
  familyID : Int
  locationID : Int
  raceID : Int
  tags : List Int
  isDead : Bool
  isPrivate : Bool
  image : String
  imageURL : String
  personalityName : List String
  personalityEntry : List String
  appearanceName : List String
  appearanceEntry : List String
  deriving Repr, DecidableEq

/-- A field guarded by an `omitempty` JSON tag: present only when the Go value
is not the zero value of its type (`cond` is the emptiness test). -/
def optField (k : String) (cond : Bool) (v : Json) : List (String × Json) :=
  if cond then [] else [(k, v)]

/-- The JSON object produced for a `SimpleCharacter` by `encoding/json`
following the struct tags on lines 38-57: `name` is always present, every
other field carries `omitempty` and is dropped at its zero value. -/
def marshalFields (sc : SimpleCharacter) : List (String × Json) :=
  [("name", Json.str sc.name)]
  ++ optField "entry" (sc.entry = "") (Json.str sc.entry)
  ++ optField "title" (sc.title = "") (Json.str sc.title)
  ++ optField "age" (sc.age = "") (Json.str sc.age)
  ++ optField "sex" (sc.sex = "") (Json.str sc.sex)
  ++ optField "type" (sc.type_ = "") (Json.str sc.type_)
  ++ optField "family_id" (sc.familyID = 0) (Json.int sc.familyID)
  ++ optField "location_id" (sc.locationID = 0) (Json.int sc.locationID)
  ++ optField "race_id" (sc.raceID = 0) (Json.int sc.raceID)
  ++ optField "tags" (sc.tags = []) (Json.arr (sc.tags.map Json.int))
  ++ optField "is_dead" (sc.isDead = false) (Json.bool sc.isDead)
  ++ optField "is_private" (sc.isPrivate = false) (Json.bool sc.isPrivate)
  ++ optField "image" (sc.image = "") (Json.str sc.image)
  ++ optField "image_url" (sc.imageURL = "") (Json.str sc.imageURL)
  ++ optField "personality_name" (sc.personalityName = [])
      (Json.arr (sc.personalityName.map Json.str))
  ++ optField "personality_entry" (sc.personalityEntry = [])
      (Json.arr (sc.personalityEntry.map Json.str))
  ++ optField "appearance_name" (sc.appearanceName = [])
      (Json.arr (sc.appearanceName.map Json.str))
  ++ optField "appearance_entry" (sc.appearanceEntry = [])
      (Json.arr (sc.appearanceEntry.map Json.str))

/-- An error value.  `fmt.Errorf` with a `%w` verb yields `wrap pre cause suf`
whose rendered message is `pre ++ cause.message ++ suf` and whose cause stays
reachable (`errors.Unwrap`); transport-level errors are `base`. -/
inductive Kerr where
  | base (msg : String)
  | wrap (pre : String) (cause : Kerr) (suf : String)
  deriving Repr, DecidableEq

/-- The rendered error message (Go `Error()`). -/
def Kerr.message : Kerr → String
  | .base m => m
  | .wrap pre c suf => pre ++ c.message ++ suf

/-- The wrapped cause (Go `errors.Unwrap`): `none` for a leaf error. -/
def Kerr.cause : Kerr → Option Kerr
  | .base _ => none
  | .wrap _ c _ => some c

/-- `SimpleCharacter.MarshalJSON` (src/character.go lines 61-68): reject a
blank `Name`, otherwise encode through the alias type (plain struct
marshalling, i.e. `marshalFields`). -/
def SimpleCharacter.MarshalJSON (sc : SimpleCharacter) : Except Kerr Json :=
  if blankIs sc.name then
    .error (.base "cannot marshal SimpleCharacter into JSON with a missing Name")
  else
    .ok (.obj (marshalFields sc))

/-- `json.Marshal` applied to a `SimpleCharacter`: `encoding/json` invokes the
custom `MarshalJSON` and wraps a failure in a `*json.MarshalerError`. -/
def jsonMarshal (sc : SimpleCharacter) : Except Kerr Json :=
  match sc.MarshalJSON with
  | .error e =>
      .error (.wrap "json: error calling MarshalJSON for type kanka.SimpleCharacter: " e "")
  | .ok v => .ok v

/-- Decode a JSON value as a Go `string` field: `encoding/json` leaves the
field at its zero value `""` when the key is absent. -/
def decodeStr (v : Option Json) : String :=
  match v with
  | some (.str s) => s
  | _ => ""

/-- Decode a JSON value as a Go `int` field (zero value `0` when absent). -/
def decodeInt (v : Option Json) : Int :=
  match v with
  | some (.int n) => n
  | _ => 0

/-- Decode a JSON value as a Go `bool` field (zero value `false` when absent). -/
def decodeBool (v : Option Json) : Bool :=
  match v with
  | some (.bool b) => b
  | _ => false

/-- Decode a JSON array element as an `int`, used for `[]int` fields. -/
def decodeIntElem (j : Json) : Option Int :=
  match j with
  | .int n => some n
  | _ => none

/-- Decode a JSON array element as a `string`, used for `[]string` fields. -/
def decodeStrElem (j : Json) : Option String :=
  match j with
  | .str s => some s
  | _ => none

/-- Decode a JSON value as a Go `[]int` field (zero value when absent). -/
def decodeIntList (v : Option Json) : List Int :=
  match v with
  | some (.arr xs) => xs.filterMap decodeIntElem
  | _ => []

/-- Decode a JSON value as a Go `[]string` field (zero value when absent). -/
def decodeStrList (v : Option Json) : List String :=
  match v with
  | some (.arr xs) => xs.filterMap decodeStrElem
  | _ => []

/-- `json.Unmarshal` of a JSON object into a `SimpleCharacter`: each struct
field is looked up by its JSON tag and left at its zero value when absent
(`SimpleCharacter` defines no custom decoder, so the standard field-by-field
decoding applies). -/
def unmarshalFields (fs : List (String × Json)) : SimpleCharacter :=
  { name := decodeStr (fs.lookup "name")
    entry := decodeStr (fs.lookup "entry")
    title := decodeStr (fs.lookup "title")
    age := decodeStr (fs.lookup "age")
    sex := decodeStr (fs.lookup "sex")
    type_ := decodeStr (fs.lookup "type")
    familyID := decodeInt (fs.lookup "family_id")
    locationID := decodeInt (fs.lookup "location_id")
    raceID := decodeInt (fs.lookup "race_id")
    tags := decodeIntList (fs.lookup "tags")
    isDead := decodeBool (fs.lookup "is_dead")
    isPrivate := decodeBool (fs.lookup "is_private")
    image := decodeStr (fs.lookup "image")
    imageURL := decodeStr (fs.lookup "image_url")
    personalityName := decodeStrList (fs.lookup "personality_name")
    personalityEntry := decodeStrList (fs.lookup "personality_entry")
    appearanceName := decodeStrList (fs.lookup "appearance_name")
    appearanceEntry := decodeStrList (fs.lookup "appearance_entry") }

/-- `json.Unmarshal` into a `SimpleCharacter`: succeeds on an object, fails on
any other document. -/
def unmarshalSimpleCharacter (j : Json) : Except Kerr SimpleCharacter :=
  match j with
  | .obj fs => .ok (unmarshalFields fs)
  | _ => .error (.base "json: cannot unmarshal value into Go value of type kanka.SimpleCharacter")

/-- `Trait` (src/character.go lines 77-84).  The Go field `Section` is renamed
`section_` because `section` is reserved in Lean. -/
structure Trait where
  id : Int
  name : String
  entry : String
  section_ : String
  isPrivate : Bool
  defaultOrder : Int
  deriving Repr, DecidableEq

/-- `Traits` (src/character.go lines 72-74): envelope around a trait list. -/
structure Traits where
  data : List Trait
  deriving Repr, DecidableEq

/-- Modelled from the spec: the sub-collection envelopes referenced by
`Character` (`Attributes`, `EntityEvents`, `EntityFiles`, `EntityNotes`,
`Relations`, `Inventory`) are declared in repository files outside `src/`;
per the wire format, each is a `\x7b"data": [...]\x7d` envelope, embedded here
with abstract elements. -/
structure SubCollection where
  data : List Json

/-- Go `time.Time`, embedded as an epoch value. -/
abbrev KTime := Int

/-- `Character` (src/character.go lines 14-33): the full record, embedding
`SimpleCharacter` plus server-assigned fields and sub-collections. -/
structure Character where
  simple : SimpleCharacter
  id : Int
  imageFull : String
  imageThumb : String
  hasCustomImage : Bool
  entityID : Int
  createdAt : KTime
  createdBy : Int
  updatedAt : KTime
  updatedBy : Int
  traits : Traits
  attributes : SubCollection
  entityEvents : SubCollection
  entityFiles : SubCollection
  entityNotes : SubCollection
  relations : SubCollection
  inventory : SubCollection

/-- Modelled from the spec: the repository's `Endpoint` type (declared outside
`src/`) is "an immutable path value with operations to append a sub-path,
append a numeric ID segment (fails if ID ≤ 0), and append a sync-since query
parameter"; appends return new values. -/
structure Endpoint where
  path : String
  syncParam : Option KTime
  deriving Repr, DecidableEq

/-- Modelled from the spec: appending a numeric ID segment "fails with an
InvalidID error when the supplied ID is ≤ 0 (never silently clamps)". -/
def Endpoint.id (e : Endpoint) (n : Int) : Except Kerr Endpoint :=
  if n ≤ 0 then
    .error (.base ("invalid ID: " ++ toString n))
  else
    .ok { e with path := e.path ++ "/" ++ toString n }

/-- Modelled from the spec: concatenating a sub-resource path segment. -/
def Endpoint.concat (e : Endpoint) (seg : String) : Endpoint :=
  { e with path := e.path ++ seg }

/-- Modelled from the spec: attaching the "only records changed since
timestamp T" query parameter. -/
def Endpoint.sync (e : Endpoint) (t : KTime) : Endpoint :=
  { e with syncParam := some t }

/-- Modelled from the spec: the campaign collection endpoint, the root of the
path shape `/campaigns/\x7bcampaignID\x7d/characters`. -/
def EndpointCampaign : Endpoint :=
  { path := "/campaigns", syncParam := none }

/-- One HTTP request issued through the generic client collaborator. -/
structure HttpCall where
  method : String
  endp : Endpoint
  body : Option Json
  deriving Repr

/-- Modelled from the spec: the generic HTTP client collaborator.  Each field
gives the decoded outcome the transport produces for a request: `get` decodes
a `\x7b"data": ...\x7d` envelope into a list (Index) or an optional record
(Get), `post`/`put` decode into an optional record, `delete` returns no
value.  A nil pointer (`none`) models a `null` or absent `data` field. -/
structure Client where
  getIndexResp : Endpoint → Except Kerr (List Character)
  getResp : Endpoint → Except Kerr (Option Character)
  postResp : Endpoint → Json → Except Kerr (Option Character)
  putResp : Endpoint → Json → Except Kerr (Option Character)
  deleteResp : Endpoint → Except Kerr Unit

/-- The `service` struct: the shared client plus the service's sub-path
(`cs.end`, which is `"/characters"` for the character service). -/
structure Service where
  client : Client
  endp : String

/-- `CharacterService` (src/character.go line 87). -/
abbrev CharacterService := Service

/-- `CharacterService.Index` (src/character.go lines 92-113).  Returns the
method's result together with the list of HTTP calls performed. -/
def CharacterService.Index (cs : CharacterService) (campID : Int) (sync : Option KTime) :
    Except Kerr (List Character) × List HttpCall :=
  match EndpointCampaign.id campID with
  | .error err => (.error (.wrap "invalid Campaign ID: " err ""), [])
  | .ok e0 =>
    let e1 := e0.concat cs.endp
    let e2 := match sync with
      | some t => e1.sync t
      | none => e1
    match cs.client.getIndexResp e2 with
    | .error err =>
        (.error (.wrap ("cannot get Character Index from Campaign (ID: "
          ++ toString campID ++ "): ") err ""), [⟨"GET", e2, none⟩])
    | .ok data => (.ok data, [⟨"GET", e2, none⟩])

/-- `CharacterService.Get` (src/character.go lines 117-139). -/
def CharacterService.Get (cs : CharacterService) (campID : Int) (charID : Int) :
    Except Kerr (Option Character) × List HttpCall :=
  match EndpointCampaign.id campID with
  | .error err => (.error (.wrap "invalid Campaign ID: " err ""), [])
  | .ok e0 =>
    let e1 := e0.concat cs.endp
    match e1.id charID with
    | .error err => (.error (.wrap "invalid Character ID: " err ""), [])
    | .ok e2 =>
      match cs.client.getResp e2 with
      | .error err =>
          (.error (.wrap ("cannot get Character (ID: " ++ toString charID
            ++ ") from Campaign (ID: " ++ toString campID ++ "): ") err ""),
           [⟨"GET", e2, none⟩])
      | .ok data => (.ok data, [⟨"GET", e2, none⟩])

/-- `CharacterService.Create` (src/character.go lines 144-166). -/
def CharacterService.Create (cs : CharacterService) (campID : Int) (ch : SimpleCharacter) :
    Except Kerr (Option Character) × List HttpCall :=
  match EndpointCampaign.id campID with
  | .error err => (.error (.wrap "invalid Campaign ID: " err ""), [])
  | .ok e0 =>
    let e1 := e0.concat cs.endp
    match jsonMarshal ch with
    | .error err =>
        (.error (.wrap ("cannot marshal SimpleCharacter (Name: " ++ ch.name
          ++ "): ") err ""), [])
    | .ok b =>
      match cs.client.postResp e1 b with
      | .error err =>
          (.error (.wrap ("cannot create Character (Name: " ++ ch.name
            ++ ") for Campaign (ID: " ++ toString campID ++ "): ") err ""),
           [⟨"POST", e1, some b⟩])
      | .ok data => (.ok data, [⟨"POST", e1, some b⟩])

/-- `CharacterService.Update` (src/character.go lines 171-198).  Note the
transport-failure message quotes the cause and identifies the character by
`Name`, not by `charID`. -/
def CharacterService.Update (cs : CharacterService) (campID : Int) (charID : Int)
    (ch : SimpleCharacter) : Except Kerr (Option Character) × List HttpCall :=
  match EndpointCampaign.id campID with
  | .error err => (.error (.wrap "invalid Campaign ID: " err ""), [])
  | .ok e0 =>
    let e1 := e0.concat cs.endp
    match e1.id charID with
    | .error err => (.error (.wrap "invalid Character ID: " err ""), [])
    | .ok e2 =>
      match jsonMarshal ch with
      | .error err =>
          (.error (.wrap ("cannot marshal SimpleCharacter (Name: " ++ ch.name
            ++ "): ") err ""), [])
      | .ok b =>
        match cs.client.putResp e2 b with
        | .error err =>
            (.error (.wrap ("cannot update Character (Name: " ++ ch.name
              ++ ") for Campaign (ID: " ++ toString campID ++ "): '") err "'"),
             [⟨"PUT", e2, some b⟩])
        | .ok data => (.ok data, [⟨"PUT", e2, some b⟩])

/-- `CharacterService.Delete` (src/character.go lines 202-220). -/
def CharacterService.Delete (cs : CharacterService) (campID : Int) (charID : Int) :
    Except Kerr Unit × List HttpCall :=
  match EndpointCampaign.id campID with
  | .error err => (.error (.wrap "invalid Campaign ID: " err ""), [])
  | .ok e0 =>
    let e1 := e0.concat cs.endp
    match e1.id charID with
    | .error err => (.error (.wrap "invalid Character ID: " err ""), [])
    | .ok e2 =>
      match cs.client.deleteResp e2 with
      | .error err =>
          (.error (.wrap ("cannot delete Character (ID: " ++ toString charID
            ++ ") for Campaign (ID: " ++ toString campID ++ "): ") err ""),
           [⟨"DELETE", e2, none⟩])
      | .ok _ => (.ok (), [⟨"DELETE", e2, none⟩])

/-! ### Named error values and observation predicates -/

/-- The validation error produced when a campaign ID fails `Endpoint.id`
(the `"invalid Campaign ID: %w"` wrap in every service method). -/
def invalidCampaignErr (campID : Int) : Kerr :=
  .wrap "invalid Campaign ID: " (.base ("invalid ID: " ++ toString campID)) ""

/-- The validation error produced when a character ID fails `Endpoint.id`
(the `"invalid Character ID: %w"` wrap in Get, Update and Delete). -/
def invalidCharacterErr (charID : Int) : Kerr :=
  .wrap "invalid Character ID: " (.base ("invalid ID: " ++ toString charID)) ""

/-- The error `Create` and `Update` return when marshalling a blank-named
payload (`"cannot marshal SimpleCharacter (Name: %s): %w"` around the
`json.MarshalerError` around the `MarshalJSON` failure). -/
def marshalBlankErr (name : String) : Kerr :=
  .wrap ("cannot marshal SimpleCharacter (Name: " ++ name ++ "): ")
    (.wrap "json: error calling MarshalJSON for type kanka.SimpleCharacter: "
      (.base "cannot marshal SimpleCharacter into JSON with a missing Name") "") ""

/-- The wrapped error `Delete` returns when the transport call fails
(src/character.go line 216). -/
def deleteWrapErr (campID charID : Int) (err : Kerr) : Kerr :=
  .wrap ("cannot delete Character (ID: " ++ toString charID
    ++ ") for Campaign (ID: " ++ toString campID ++ "): ") err ""

/-- The wrapped error `Index` returns when the transport call fails
(src/character.go line 109). -/
def indexWrapErr (campID : Int) (err : Kerr) : Kerr :=
  .wrap ("cannot get Character Index from Campaign (ID: "
    ++ toString campID ++ "): ") err ""

/-- The wrapped error `Get` returns when the transport call fails
(src/character.go line 135). -/
def getWrapErr (campID charID : Int) (err : Kerr) : Kerr :=
  .wrap ("cannot get Character (ID: " ++ toString charID
    ++ ") from Campaign (ID: " ++ toString campID ++ "): ") err ""

/-- The wrapped error `Create` returns when the transport call fails
(src/character.go line 162): like Update, it names the character. -/
def createWrapErr (campID : Int) (name : String) (err : Kerr) : Kerr :=
  .wrap ("cannot create Character (Name: " ++ name
    ++ ") for Campaign (ID: " ++ toString campID ++ "): ") err ""

/-- The wrapped error `Update` returns when the transport call fails
(src/character.go line 194): it names the character, not its ID. -/
def updateWrapErr (campID : Int) (name : String) (err : Kerr) : Kerr :=
  .wrap ("cannot update Character (Name: " ++ name
    ++ ") for Campaign (ID: " ++ toString campID ++ "): '") err "'"

/-- `msg` mentions `sub`: `sub` occurs verbatim inside `msg`. -/
def mentions (msg sub : String) : Prop :=
  ∃ pre post, msg = pre ++ (sub ++ post)

/-- A method result preserves its cause chain when any error it carries can be
unwrapped to an underlying cause. -/
def errCausePreserved {α : Type} (r : Except Kerr α) : Prop :=
  match r with
  | .error e => e.cause.isSome = true
  | .ok _ => True

/-- Every error any of the five service methods can return, at any IDs, any
sync timestamp, any payload — validation, marshal or transport failure alike —
carries an unwrappable underlying cause. -/
def allErrorsWrapped (cs : CharacterService) : Prop :=
  ∀ (campID charID : Int) (sync : Option KTime) (ch : SimpleCharacter),
    errCausePreserved (cs.Index campID sync).1 ∧
    errCausePreserved (cs.Get campID charID).1 ∧
    errCausePreserved (cs.Create campID ch).1 ∧
    errCausePreserved (cs.Update campID charID ch).1 ∧
    errCausePreserved (cs.Delete campID charID).1

/-- The encoded object omits every `omitempty` field whose Go value is the
zero value of its type. -/
def omitsEmptyOptionals (sc : SimpleCharacter) : Prop :=
  (sc.entry = "" → (marshalFields sc).lookup "entry" = none) ∧
  (sc.title = "" → (marshalFields sc).lookup "title" = none) ∧
  (sc.age = "" → (marshalFields sc).lookup "age" = none) ∧
  (sc.sex = "" → (marshalFields sc).lookup "sex" = none) ∧
  (sc.type_ = "" → (marshalFields sc).lookup "type" = none) ∧
  (sc.familyID = 0 → (marshalFields sc).lookup "family_id" = none) ∧
  (sc.locationID = 0 → (marshalFields sc).lookup "location_id" = none) ∧
  (sc.raceID = 0 → (marshalFields sc).lookup "race_id" = none) ∧
  (sc.tags = [] → (marshalFields sc).lookup "tags" = none) ∧
  (sc.isDead = false → (marshalFields sc).lookup "is_dead" = none) ∧
  (sc.isPrivate = false → (marshalFields sc).lookup "is_private" = none) ∧
  (sc.image = "" → (marshalFields sc).lookup "image" = none) ∧
  (sc.imageURL = "" → (marshalFields sc).lookup "image_url" = none) ∧
  (sc.personalityName = [] → (marshalFields sc).lookup "personality_name" = none) ∧
  (sc.personalityEntry = [] → (marshalFields sc).lookup "personality_entry" = none) ∧
  (sc.appearanceName = [] → (marshalFields sc).lookup "appearance_name" = none) ∧
  (sc.appearanceEntry = [] → (marshalFields sc).lookup "appearance_entry" = none)

/-! ### Concrete fixtures used by witnesses and counterexamples -/

/-- A fully populated `SimpleCharacter` whose `Name` is whitespace-only
(blank). -/
def scBlankFull : SimpleCharacter :=
  ⟨" ", "Bastard of Winterfell", "Lord Commander", "23", "m", "npc",
    1, 2, 3, [4, 5], true, true, "snow.png", "http://img", ["brave"],
    ["keeps his word"], ["tall"], ["dark hair"]⟩

/-- A `SimpleCharacter` with a non-blank `Name`, some optional fields
populated and others left at their zero values. -/
def scOk : SimpleCharacter :=
  ⟨"Jon Snow", "a bastard", "", "", "m", "", 0, 7, 0, [1, 3], false, true,
    "", "", ["brooding"], [], [], []⟩

/-- A minimal valid payload. -/
def chJon : SimpleCharacter :=
  ⟨"Jon", "", "", "", "", "", 0, 0, 0, [], false, false, "", "", [], [], [], []⟩

/-- A stub transport whose requests all succeed with empty payloads. -/
def stubClient : Client :=
  { getIndexResp := fun _ => .ok []
    getResp := fun _ => .ok none
    postResp := fun _ _ => .ok none
    putResp := fun _ _ => .ok none
    deleteResp := fun _ => .ok () }

/-- The character service over the stub transport. -/
def csStub : CharacterService :=
  { client := stubClient, endp := "/characters" }

/-- The transport error of a backend answering HTTP 404. -/
def err404 : Kerr := .base "404 Not Found"

/-- A transport for which every request fails with HTTP 404. -/
def notFoundClient : Client :=
  { getIndexResp := fun _ => .error err404
    getResp := fun _ => .error err404
    postResp := fun _ _ => .error err404
    putResp := fun _ _ => .error err404
    deleteResp := fun _ => .error err404 }

/-- The character service over the 404 transport. -/
def cs404 : CharacterService :=
  { client := notFoundClient, endp := "/characters" }

/-! ### Shared lemmas -/

theorem lookup_cons (k k' : String) (v : Json) (rest : List (String × Json)) :
    ((k, v) :: rest).lookup k' = cond (k' == k) (some v) (rest.lookup k') := by
  cases h : (k' == k) <;> simp [List.lookup, h]

theorem lookup_optField_append (k k' : String) (c : Bool) (v : Json)
    (rest : List (String × Json)) :
    (optField k c v ++ rest).lookup k' =
      cond ((k' == k) && !c) (some v) (rest.lookup k') := by
  cases c <;> cases hk : (k' == k) <;> simp [optField, List.lookup, hk]

theorem lookup_optField_last (k k' : String) (c : Bool) (v : Json) :
    (optField k c v).lookup k' = cond ((k' == k) && !c) (some v) none := by
  cases c <;> cases hk : (k' == k) <;> simp [optField, List.lookup, hk]

theorem lookup_mf_name (sc : SimpleCharacter) :
    (marshalFields sc).lookup "name" = some (.str sc.name) := by
  simp only [marshalFields, List.append_assoc, List.cons_append, List.nil_append,
    lookup_cons, lookup_optField_append, lookup_optField_last]
  simp

theorem lookup_mf_entry (sc : SimpleCharacter) :
    (marshalFields sc).lookup "entry" =
      if sc.entry = "" then none else some (.str sc.entry) := by
  simp only [marshalFields, List.append_assoc, List.cons_append, List.nil_append,
    lookup_cons, lookup_optField_append, lookup_optField_last]
  by_cases h : sc.entry = "" <;> simp [h]

theorem lookup_mf_title (sc : SimpleCharacter) :
    (marshalFields sc).lookup "title" =
      if sc.title = "" then none else some (.str sc.title) := by
  simp only [marshalFields, List.append_assoc, List.cons_append, List.nil_append,
    lookup_cons, lookup_optField_append, lookup_optField_last]
  by_cases h : sc.title = "" <;> simp [h]

theorem lookup_mf_age (sc : SimpleCharacter) :
    (marshalFields sc).lookup "age" =
      if sc.age = "" then none else some (.str sc.age) := by
  simp only [marshalFields, List.append_assoc, List.cons_append, List.nil_append,
    lookup_cons, lookup_optField_append, lookup_optField_last]
  by_cases h : sc.age = "" <;> simp [h]

theorem lookup_mf_sex (sc : SimpleCharacter) :
    (marshalFields sc).lookup "sex" =
      if sc.sex = "" then none else some (.str sc.sex) := by
  simp only [marshalFields, List.append_assoc, List.cons_append, List.nil_append,
    lookup_cons, lookup_optField_append, lookup_optField_last]
  by_cases h : sc.sex = "" <;> simp [h]

theorem lookup_mf_type (sc : SimpleCharacter) :
    (marshalFields sc).lookup "type" =
      if sc.type_ = "" then none else some (.str sc.type_) := by
  simp only [marshalFields, List.append_assoc, List.cons_append, List.nil_append,
    lookup_cons, lookup_optField_append, lookup_optField_last]
  by_cases h : sc.type_ = "" <;> simp [h]

theorem lookup_mf_familyID (sc : SimpleCharacter) :
    (marshalFields sc).lookup "family_id" =
      if sc.familyID = 0 then none else some (.int sc.familyID) := by
  simp only [marshalFields, List.append_assoc, List.cons_append, List.nil_append,
    lookup_cons, lookup_optField_append, lookup_optField_last]
  by_cases h : sc.familyID = 0 <;> simp [h]

theorem lookup_mf_locationID (sc : SimpleCharacter) :
    (marshalFields sc).lookup "location_id" =
      if sc.locationID = 0 then none else some (.int sc.locationID) := by
  simp only [marshalFields, List.append_assoc, List.cons_append, List.nil_append,
    lookup_cons, lookup_optField_append, lookup_optField_last]
  by_cases h : sc.locationID = 0 <;> simp [h]

theorem lookup_mf_raceID (sc : SimpleCharacter) :
    (marshalFields sc).lookup "race_id" =
      if sc.raceID = 0 then none else some (.int sc.raceID) := by
  simp only [marshalFields, List.append_assoc, List.cons_append, List.nil_append,
    lookup_cons, lookup_optField_append, lookup_optField_last]
  by_cases h : sc.raceID = 0 <;> simp [h]

theorem lookup_mf_tags (sc : SimpleCharacter) :
    (marshalFields sc).lookup "tags" =
      if sc.tags = [] then none else some (.arr (sc.tags.map Json.int)) := by
  simp only [marshalFields, List.append_assoc, List.cons_append, List.nil_append,
    lookup_cons, lookup_optField_append, lookup_optField_last]
  by_cases h : sc.tags = [] <;> simp [h]

theorem lookup_mf_isDead (sc : SimpleCharacter) :
    (marshalFields sc).lookup "is_dead" =
      if sc.isDead = false then none else some (.bool sc.isDead) := by
  simp only [marshalFields, List.append_assoc, List.cons_append, List.nil_append,
    lookup_cons, lookup_optField_append, lookup_optField_last]
  by_cases h : sc.isDead = false <;> simp [h]

theorem lookup_mf_isPrivate (sc : SimpleCharacter) :
    (marshalFields sc).lookup "is_private" =
      if sc.isPrivate = false then none else some (.bool sc.isPrivate) := by
  simp only [marshalFields, List.append_assoc, List.cons_append, List.nil_append,
    lookup_cons, lookup_optField_append, lookup_optField_last]
  by_cases h : sc.isPrivate = false <;> simp [h]

theorem lookup_mf_image (sc : SimpleCharacter) :
    (marshalFields sc).lookup "image" =
      if sc.image = "" then none else some (.str sc.image) := by
  simp only [marshalFields, List.append_assoc, List.cons_append, List.nil_append,
    lookup_cons, lookup_optField_append, lookup_optField_last]
  by_cases h : sc.image = "" <;> simp [h]

theorem lookup_mf_imageURL (sc : SimpleCharacter) :
    (marshalFields sc).lookup "image_url" =
      if sc.imageURL = "" then none else some (.str sc.imageURL) := by
  simp only [marshalFields, List.append_assoc, List.cons_append, List.nil_append,
    lookup_cons, lookup_optField_append, lookup_optField_last]
  by_cases h : sc.imageURL = "" <;> simp [h]

theorem lookup_mf_personalityName (sc : SimpleCharacter) :
    (marshalFields sc).lookup "personality_name" =
      if sc.personalityName = [] then none else some (.arr (sc.personalityName.map Json.str)) := by
  simp only [marshalFields, List.append_assoc, List.cons_append, List.nil_append,
    lookup_cons, lookup_optField_append, lookup_optField_last]
  by_cases h : sc.personalityName = [] <;> simp [h]

theorem lookup_mf_personalityEntry (sc : SimpleCharacter) :
    (marshalFields sc).lookup "personality_entry" =
      if sc.personalityEntry = [] then none else some (.arr (sc.personalityEntry.map Json.str)) := by
  simp only [marshalFields, List.append_assoc, List.cons_append, List.nil_append,
    lookup_cons, lookup_optField_append, lookup_optField_last]
  by_cases h : sc.personalityEntry = [] <;> simp [h]

theorem lookup_mf_appearanceName (sc : SimpleCharacter) :
    (marshalFields sc).lookup "appearance_name" =
      if sc.appearanceName = [] then none else some (.arr (sc.appearanceName.map Json.str)) := by
  simp only [marshalFields, List.append_assoc, List.cons_append, List.nil_append,
    lookup_cons, lookup_optField_append, lookup_optField_last]
  by_cases h : sc.appearanceName = [] <;> simp [h]

theorem lookup_mf_appearanceEntry (sc : SimpleCharacter) :
    (marshalFields sc).lookup "appearance_entry" =
      if sc.appearanceEntry = [] then none else some (.arr (sc.appearanceEntry.map Json.str)) := by
  simp only [marshalFields, List.append_assoc, List.cons_append, List.nil_append,
    lookup_cons, lookup_optField_append, lookup_optField_last]
  by_cases h : sc.appearanceEntry = [] <;> simp [h]

theorem filterMap_decodeIntElem_comp (l : List Int) :
    l.filterMap (decodeIntElem ∘ Json.int) = l := by
  induction l with
  | nil => rfl
  | cons x t ih => simp [decodeIntElem, Function.comp, ih]

theorem filterMap_decodeStrElem_comp (l : List String) :
    l.filterMap (decodeStrElem ∘ Json.str) = l := by
  induction l with
  | nil => rfl
  | cons x t ih => simp [decodeStrElem, Function.comp, ih]

theorem unmarshalFields_marshalFields (sc : SimpleCharacter) :
    unmarshalFields (marshalFields sc) = sc := by
  obtain ⟨n, e, t, a, s, ty, fid, lid, rid, tg, dead, priv, im, iu, pn, pe, an, ae⟩ := sc
  simp only [unmarshalFields, lookup_mf_name, lookup_mf_entry, lookup_mf_title,
    lookup_mf_age, lookup_mf_sex, lookup_mf_type, lookup_mf_familyID,
    lookup_mf_locationID, lookup_mf_raceID, lookup_mf_tags, lookup_mf_isDead,
    lookup_mf_isPrivate, lookup_mf_image, lookup_mf_imageURL,
    lookup_mf_personalityName, lookup_mf_personalityEntry,
    lookup_mf_appearanceName, lookup_mf_appearanceEntry,
    SimpleCharacter.mk.injEq]
  refine ⟨by simp [decodeStr], ?_, ?_, ?_, ?_, ?_, ?_, ?_, ?_, ?_, ?_, ?_, ?_,
    ?_, ?_, ?_, ?_, ?_⟩ <;>
    split <;>
    simp_all [decodeStr, decodeInt, decodeBool, decodeIntList, decodeStrList,
      filterMap_decodeIntElem_comp, filterMap_decodeStrElem_comp]

theorem Endpoint.id_pos (e : Endpoint) (n : Int) (h : 0 < n) :
    e.id n = .ok ⟨e.path ++ "/" ++ toString n, e.syncParam⟩ := by
  simp only [Endpoint.id, if_neg (not_le.mpr h)]

theorem Endpoint.id_nonpos (e : Endpoint) (n : Int) (h : n ≤ 0) :
    e.id n = .error (.base ("invalid ID: " ++ toString n)) := by
  simp only [Endpoint.id, if_pos h]

theorem jsonMarshal_ok (ch : SimpleCharacter) (h : blankIs ch.name = false) :
    jsonMarshal ch = .ok (.obj (marshalFields ch)) := by
  simp [jsonMarshal, SimpleCharacter.MarshalJSON, h]

theorem jsonMarshal_blank (ch : SimpleCharacter) (h : blankIs ch.name = true) :
    jsonMarshal ch =
      .error (.wrap "json: error calling MarshalJSON for type kanka.SimpleCharacter: "
        (.base "cannot marshal SimpleCharacter into JSON with a missing Name") "") := by
  simp [jsonMarshal, SimpleCharacter.MarshalJSON, h]

/-! ### Claim theorems -/

/-- C1: for every `SimpleCharacter` whose `Name` field is blank, `MarshalJSON`
returns an error (and, the result being the `error` constructor, no encoded
bytes), regardless of which other fields are populated. -/
theorem marshalJSON_blank_name_fails (sc : SimpleCharacter)
    (h : blankIs sc.name = true) :
    sc.MarshalJSON =
      .error (.base "cannot marshal SimpleCharacter into JSON with a missing Name") := by
  simp [SimpleCharacter.MarshalJSON, h]

/-- C1 witness: a whitespace-only `Name` with every other field populated. -/
theorem marshalJSON_blank_name_fails_witness :
    blankIs scBlankFull.name = true ∧
    scBlankFull.MarshalJSON =
      .error (.base "cannot marshal SimpleCharacter into JSON with a missing Name") :=
  ⟨by decide, marshalJSON_blank_name_fails scBlankFull (by decide)⟩

/-- C6: for every `SimpleCharacter` with a non-blank `Name`, `MarshalJSON`
succeeds, and the encoded object omits every `omitempty` field whose value is
empty. -/
theorem marshalJSON_nonblank_succeeds_omits_empty (sc : SimpleCharacter)
    (h : blankIs sc.name = false) :
    sc.MarshalJSON = .ok (.obj (marshalFields sc)) ∧ omitsEmptyOptionals sc := by
  refine ⟨by simp [SimpleCharacter.MarshalJSON, h], ?_, ?_, ?_, ?_, ?_, ?_, ?_,
    ?_, ?_, ?_, ?_, ?_, ?_, ?_, ?_, ?_, ?_⟩ <;>
    intro hf <;>
    simp [lookup_mf_entry, lookup_mf_title, lookup_mf_age, lookup_mf_sex,
      lookup_mf_type, lookup_mf_familyID, lookup_mf_locationID, lookup_mf_raceID,
      lookup_mf_tags, lookup_mf_isDead, lookup_mf_isPrivate, lookup_mf_image,
      lookup_mf_imageURL, lookup_mf_personalityName, lookup_mf_personalityEntry,
      lookup_mf_appearanceName, lookup_mf_appearanceEntry, hf]

/-- C6 witness: `scOk` has a non-blank name, some optional fields populated
and others empty. -/
theorem marshalJSON_nonblank_witness :
    blankIs scOk.name = false ∧
    (scOk.MarshalJSON = .ok (.obj (marshalFields scOk)) ∧ omitsEmptyOptionals scOk) :=
  ⟨by decide, marshalJSON_nonblank_succeeds_omits_empty scOk (by decide)⟩

/-- C7: for every `SimpleCharacter` with a non-blank `Name`, marshalling to
JSON and unmarshalling the result reproduces the same field values. -/
theorem marshal_unmarshal_roundtrip (sc : SimpleCharacter)
    (h : blankIs sc.name = false) :
    sc.MarshalJSON.bind unmarshalSimpleCharacter = .ok sc := by
  have h1 : sc.MarshalJSON = .ok (.obj (marshalFields sc)) := by
    simp [SimpleCharacter.MarshalJSON, h]
  rw [h1]
  show unmarshalSimpleCharacter (.obj (marshalFields sc)) = .ok sc
  simp [unmarshalSimpleCharacter, unmarshalFields_marshalFields]

/-- C7 witness: the round trip at the concrete `scOk`. -/
theorem marshal_unmarshal_roundtrip_witness :
    blankIs scOk.name = false ∧
    scOk.MarshalJSON.bind unmarshalSimpleCharacter = .ok scOk :=
  ⟨by decide, marshal_unmarshal_roundtrip scOk (by decide)⟩

/-- C2: for every campaign ID ≤ 0 and character ID ≤ 0, each service method
returns the wrapped InvalidID validation error and performs no HTTP call
(empty call trace): the campaign ID is validated first, so every method fails
on it before reaching the transport. -/
theorem invalid_ids_fail_without_call (cs : CharacterService) (campID charID : Int)
    (sync : Option KTime) (ch : SimpleCharacter)
    (h1 : campID ≤ 0) (_h2 : charID ≤ 0) :
    cs.Index campID sync = (.error (invalidCampaignErr campID), []) ∧
    cs.Get campID charID = (.error (invalidCampaignErr campID), []) ∧
    cs.Create campID ch = (.error (invalidCampaignErr campID), []) ∧
    cs.Update campID charID ch = (.error (invalidCampaignErr campID), []) ∧
    cs.Delete campID charID = (.error (invalidCampaignErr campID), []) := by
  refine ⟨?_, ?_, ?_, ?_, ?_⟩ <;>
    simp [CharacterService.Index, CharacterService.Get, CharacterService.Create,
      CharacterService.Update, CharacterService.Delete,
      Endpoint.id_nonpos _ _ h1, invalidCampaignErr]

/-- C2 witness: campaign ID 0 and character ID -1 over the stub transport. -/
theorem invalid_ids_fail_without_call_witness :
    csStub.Index 0 none = (.error (invalidCampaignErr 0), []) ∧
    csStub.Get 0 (-1) = (.error (invalidCampaignErr 0), []) ∧
    csStub.Create 0 chJon = (.error (invalidCampaignErr 0), []) ∧
    csStub.Update 0 (-1) chJon = (.error (invalidCampaignErr 0), []) ∧
    csStub.Delete 0 (-1) = (.error (invalidCampaignErr 0), []) :=
  invalid_ids_fail_without_call csStub 0 (-1) none chJon (by decide) (by decide)

/-- C4: `Index` with a nil sync timestamp issues its GET against an endpoint
carrying no sync query parameter, while `Index` with a timestamp issues it
against an endpoint carrying that timestamp (same path in both cases). -/
theorem index_sync_endpoint (cs : CharacterService) (campID : Int) (t : KTime)
    (h : 0 < campID) :
    (cs.Index campID none).2 =
      [⟨"GET", ⟨"/campaigns" ++ "/" ++ toString campID ++ cs.endp, none⟩, none⟩] ∧
    (cs.Index campID (some t)).2 =
      [⟨"GET", ⟨"/campaigns" ++ "/" ++ toString campID ++ cs.endp, some t⟩, none⟩] := by
  have hid : EndpointCampaign.id campID =
      .ok ⟨"/campaigns" ++ "/" ++ toString campID, none⟩ :=
    Endpoint.id_pos EndpointCampaign campID h
  constructor <;>
  · simp only [CharacterService.Index, hid, Endpoint.concat, Endpoint.sync]
    split <;> simp

/-- C4 witness: campaign 5, timestamp 12345, over the stub transport. -/
theorem index_sync_endpoint_witness :
    (csStub.Index 5 none).2 =
      [⟨"GET", ⟨"/campaigns" ++ "/" ++ toString (5 : Int) ++ csStub.endp, none⟩, none⟩] ∧
    (csStub.Index 5 (some 12345)).2 =
      [⟨"GET", ⟨"/campaigns" ++ "/" ++ toString (5 : Int) ++ csStub.endp,
        some 12345⟩, none⟩] :=
  index_sync_endpoint csStub 5 12345 (by decide)

/-- C5: when the transport's GET succeeds with an envelope holding zero
records, `Index` returns the empty list and no error. -/
theorem index_empty_data_ok (cs : CharacterService) (campID : Int)
    (sync : Option KTime) (h : 0 < campID)
    (hresp : ∀ ep, cs.client.getIndexResp ep = .ok []) :
    (cs.Index campID sync).1 = .ok [] := by
  simp [CharacterService.Index, Endpoint.id_pos EndpointCampaign campID h, hresp]

/-- C5 witness: the stub transport always answers with zero records. -/
theorem index_empty_data_ok_witness :
    (0 : Int) < 5 ∧ (csStub.Index 5 none).1 = .ok [] :=
  ⟨by decide, index_empty_data_ok csStub 5 none (by decide) (fun _ => rfl)⟩

/-- C8: every service method performs at most one HTTP call: exactly one when
local ID validation (and, for Create/Update, payload serialization) succeeds,
zero when it fails; in particular nothing is ever retried. -/
theorem at_most_one_call (cs : CharacterService) (campID charID : Int)
    (sync : Option KTime) (ch : SimpleCharacter) :
    (cs.Index campID sync).2.length = (if 0 < campID then 1 else 0) ∧
    (cs.Get campID charID).2.length =
      (if 0 < campID ∧ 0 < charID then 1 else 0) ∧
    (cs.Create campID ch).2.length =
      (if 0 < campID ∧ blankIs ch.name = false then 1 else 0) ∧
    (cs.Update campID charID ch).2.length =
      (if 0 < campID ∧ 0 < charID ∧ blankIs ch.name = false then 1 else 0) ∧
    (cs.Delete campID charID).2.length =
      (if 0 < campID ∧ 0 < charID then 1 else 0) := by
  rcases le_or_lt campID 0 with hc | hc
  · have hni : ¬ (0 < campID) := not_lt.mpr hc
    refine ⟨?_, ?_, ?_, ?_, ?_⟩ <;>
      simp [CharacterService.Index, CharacterService.Get, CharacterService.Create,
        CharacterService.Update, CharacterService.Delete,
        Endpoint.id_nonpos _ _ hc, hni]
  · have hid : EndpointCampaign.id campID =
        .ok ⟨"/campaigns" ++ "/" ++ toString campID, none⟩ :=
      Endpoint.id_pos EndpointCampaign campID hc
    refine ⟨?_, ?_, ?_, ?_, ?_⟩
    · cases sync <;>
      · simp only [CharacterService.Index, hid, Endpoint.concat, Endpoint.sync]
        split <;> simp [hc]
    · rcases le_or_lt charID 0 with hch | hch
      · simp [CharacterService.Get, hid, Endpoint.concat,
          Endpoint.id_nonpos _ _ hch, not_lt.mpr hch]
      · simp only [CharacterService.Get, hid, Endpoint.concat,
          Endpoint.id_pos _ _ hch]
        split <;> simp [hc, hch]
    · cases hbn : blankIs ch.name
      · simp only [CharacterService.Create, hid, Endpoint.concat,
          jsonMarshal_ok ch hbn]
        split <;> simp [hc, hbn]
      · simp [CharacterService.Create, hid, Endpoint.concat,
          jsonMarshal_blank ch hbn, hbn]
    · rcases le_or_lt charID 0 with hch | hch
      · simp [CharacterService.Update, hid, Endpoint.concat,
          Endpoint.id_nonpos _ _ hch, not_lt.mpr hch]
      · cases hbn : blankIs ch.name
        · simp only [CharacterService.Update, hid, Endpoint.concat,
            Endpoint.id_pos _ _ hch, jsonMarshal_ok ch hbn]
          split <;> simp [hc, hch, hbn]
        · simp [CharacterService.Update, hid, Endpoint.concat,
            Endpoint.id_pos _ _ hch, jsonMarshal_blank ch hbn, hbn]
    · rcases le_or_lt charID 0 with hch | hch
      · simp [CharacterService.Delete, hid, Endpoint.concat,
          Endpoint.id_nonpos _ _ hch, not_lt.mpr hch]
      · simp only [CharacterService.Delete, hid, Endpoint.concat,
          Endpoint.id_pos _ _ hch]
        split <;> simp [hc, hch]

/-- C9: when the transport's GET succeeds but the envelope's `data` field is
null or absent (a nil `*Character`), `Get` returns a nil pointer and a nil
error: `(nil, nil)`, not an error. -/
theorem get_null_data_ok (cs : CharacterService) (campID charID : Int)
    (h1 : 0 < campID) (h2 : 0 < charID)
    (hresp : ∀ ep, cs.client.getResp ep = .ok none) :
    (cs.Get campID charID).1 = .ok none := by
  have hid : EndpointCampaign.id campID =
      .ok ⟨"/campaigns" ++ "/" ++ toString campID, none⟩ :=
    Endpoint.id_pos EndpointCampaign campID h1
  simp [CharacterService.Get, hid, Endpoint.concat, Endpoint.id_pos _ _ h2, hresp]

/-- C9 witness: the stub transport answers every GET with a null `data`. -/
theorem get_null_data_ok_witness :
    (0 : Int) < 5 ∧ (0 : Int) < 9 ∧ (csStub.Get 5 9).1 = .ok none :=
  ⟨by decide, by decide, get_null_data_ok csStub 5 9 (by decide) (by decide)
    (fun _ => rfl)⟩

/-- C10: in Create and Update, ID validation precedes payload serialization:
with a blank `Name`, the outcome is the invalid-ID error whenever an ID is
invalid, and the marshal error only once all IDs are valid. -/
theorem id_validation_precedes_marshal (cs : CharacterService)
    (campID charID : Int) (ch : SimpleCharacter)
    (hName : blankIs ch.name = true) :
    (cs.Create campID ch).1 =
      .error (if campID ≤ 0 then invalidCampaignErr campID
              else marshalBlankErr ch.name) ∧
    (cs.Update campID charID ch).1 =
      .error (if campID ≤ 0 then invalidCampaignErr campID
              else if charID ≤ 0 then invalidCharacterErr charID
              else marshalBlankErr ch.name) := by
  rcases le_or_lt campID 0 with hc | hc
  · simp [CharacterService.Create, CharacterService.Update,
      Endpoint.id_nonpos _ _ hc, hc, invalidCampaignErr]
  · have hni : ¬ campID ≤ 0 := not_le.mpr hc
    have hid : EndpointCampaign.id campID =
        .ok ⟨"/campaigns" ++ "/" ++ toString campID, none⟩ :=
      Endpoint.id_pos EndpointCampaign campID hc
    rcases le_or_lt charID 0 with hch | hch
    · constructor
      · simp [CharacterService.Create, hid, Endpoint.concat,
          jsonMarshal_blank ch hName, hni, marshalBlankErr]
      · simp [CharacterService.Update, hid, Endpoint.concat,
          Endpoint.id_nonpos _ _ hch, hch, hni, invalidCharacterErr]
    · have hnch : ¬ charID ≤ 0 := not_le.mpr hch
      constructor
      · simp [CharacterService.Create, hid, Endpoint.concat,
          jsonMarshal_blank ch hName, hni, marshalBlankErr]
      · simp [CharacterService.Update, hid, Endpoint.concat,
          Endpoint.id_pos _ _ hch, jsonMarshal_blank ch hName, hni, hnch,
          marshalBlankErr]

/-- C10 witness: campaign 0 (and separately character 0) with the blank-named
fully populated payload. -/
theorem id_validation_precedes_marshal_witness :
    blankIs scBlankFull.name = true ∧
    ((csStub.Create 0 scBlankFull).1 =
      .error (if (0 : Int) ≤ 0 then invalidCampaignErr 0
              else marshalBlankErr scBlankFull.name) ∧
     (csStub.Update 0 0 scBlankFull).1 =
      .error (if (0 : Int) ≤ 0 then invalidCampaignErr 0
              else if (0 : Int) ≤ 0 then invalidCharacterErr 0
              else marshalBlankErr scBlankFull.name)) :=
  ⟨by decide, id_validation_precedes_marshal csStub 0 0 scBlankFull (by decide)⟩

/-- C3 counterexample: `Update(campID=5, charID=9)` against a backend whose
PUT fails with 404 returns an error whose message nowhere contains the digit
9 — the target character ID is not mentioned, contradicting the claim that
every wrapping message identifies the parent and target IDs. -/
theorem update_404_message_omits_char_id :
    (cs404.Update 5 9 chJon).1 =
      .error (.wrap "cannot update Character (Name: Jon) for Campaign (ID: 5): '"
        (.base "404 Not Found") "'") ∧
    ((Kerr.wrap "cannot update Character (Name: Jon) for Campaign (ID: 5): '"
        (.base "404 Not Found") "'").message.toList.contains '9') = false :=
  ⟨rfl, by decide⟩

/-- C3 (amended): every error any service method returns wraps the underlying
cause (it stays unwrappable, never flattened) — validation, marshal and
transport failures alike; transport-failure messages identify the resource and
the parent campaign ID, the target character by ID in Get and Delete, and the
character by Name in Create and Update — Update's message omits the target
character ID. -/
theorem errors_preserve_cause_and_context (cs : CharacterService)
    (campID charID : Int) (sync : Option KTime) (ch : SimpleCharacter)
    (err : Kerr) (hCamp : 0 < campID) (hChar : 0 < charID)
    (hName : blankIs ch.name = false)
    (hIdx : ∀ ep, cs.client.getIndexResp ep = .error err)
    (hGet : ∀ ep, cs.client.getResp ep = .error err)
    (hPost : ∀ ep b, cs.client.postResp ep b = .error err)
    (hPut : ∀ ep b, cs.client.putResp ep b = .error err)
    (hDel : ∀ ep, cs.client.deleteResp ep = .error err) :
    allErrorsWrapped cs ∧
    (cs.Index campID sync).1 = .error (indexWrapErr campID err) ∧
    (indexWrapErr campID err).cause = some err ∧
    mentions (indexWrapErr campID err).message (toString campID) ∧
    (cs.Get campID charID).1 = .error (getWrapErr campID charID err) ∧
    (getWrapErr campID charID err).cause = some err ∧
    mentions (getWrapErr campID charID err).message (toString campID) ∧
    mentions (getWrapErr campID charID err).message (toString charID) ∧
    (cs.Create campID ch).1 = .error (createWrapErr campID ch.name err) ∧
    (createWrapErr campID ch.name err).cause = some err ∧
    mentions (createWrapErr campID ch.name err).message ch.name ∧
    mentions (createWrapErr campID ch.name err).message (toString campID) ∧
    (cs.Update campID charID ch).1 = .error (updateWrapErr campID ch.name err) ∧
    (updateWrapErr campID ch.name err).cause = some err ∧
    mentions (updateWrapErr campID ch.name err).message ch.name ∧
    mentions (updateWrapErr campID ch.name err).message (toString campID) ∧
    (cs.Delete campID charID).1 = .error (deleteWrapErr campID charID err) ∧
    (deleteWrapErr campID charID err).cause = some err ∧
    mentions (deleteWrapErr campID charID err).message (toString campID) ∧
    mentions (deleteWrapErr campID charID err).message (toString charID) := by
  have hid : EndpointCampaign.id campID =
      .ok ⟨"/campaigns" ++ "/" ++ toString campID, none⟩ :=
    Endpoint.id_pos EndpointCampaign campID hCamp
  have hwrapped : allErrorsWrapped cs := by
    intro campID2 charID2 sync2 ch2
    rcases le_or_lt campID2 0 with hc | hc
    · refine ⟨?_, ?_, ?_, ?_, ?_⟩ <;>
        simp [CharacterService.Index, CharacterService.Get,
          CharacterService.Create, CharacterService.Update,
          CharacterService.Delete, Endpoint.id_nonpos _ _ hc,
          errCausePreserved, Kerr.cause]
    · have hid2 : EndpointCampaign.id campID2 =
          .ok ⟨"/campaigns" ++ "/" ++ toString campID2, none⟩ :=
        Endpoint.id_pos EndpointCampaign campID2 hc
      refine ⟨?_, ?_, ?_, ?_, ?_⟩
      · cases sync2 <;>
        · simp only [CharacterService.Index, hid2, Endpoint.concat,
            Endpoint.sync]
          split <;> simp [errCausePreserved, Kerr.cause]
      · rcases le_or_lt charID2 0 with hch | hch
        · simp [CharacterService.Get, hid2, Endpoint.concat,
            Endpoint.id_nonpos _ _ hch, errCausePreserved, Kerr.cause]
        · simp only [CharacterService.Get, hid2, Endpoint.concat,
            Endpoint.id_pos _ _ hch]
          split <;> simp [errCausePreserved, Kerr.cause]
      · cases hbn : blankIs ch2.name
        · simp only [CharacterService.Create, hid2, Endpoint.concat,
            jsonMarshal_ok ch2 hbn]
          split <;> simp [errCausePreserved, Kerr.cause]
        · simp [CharacterService.Create, hid2, Endpoint.concat,
            jsonMarshal_blank ch2 hbn, errCausePreserved, Kerr.cause]
      · rcases le_or_lt charID2 0 with hch | hch
        · simp [CharacterService.Update, hid2, Endpoint.concat,
            Endpoint.id_nonpos _ _ hch, errCausePreserved, Kerr.cause]
        · cases hbn : blankIs ch2.name
          · simp only [CharacterService.Update, hid2, Endpoint.concat,
              Endpoint.id_pos _ _ hch, jsonMarshal_ok ch2 hbn]
            split <;> simp [errCausePreserved, Kerr.cause]
          · simp [CharacterService.Update, hid2, Endpoint.concat,
              Endpoint.id_pos _ _ hch, jsonMarshal_blank ch2 hbn,
              errCausePreserved, Kerr.cause]
      · rcases le_or_lt charID2 0 with hch | hch
        · simp [CharacterService.Delete, hid2, Endpoint.concat,
            Endpoint.id_nonpos _ _ hch, errCausePreserved, Kerr.cause]
        · simp only [CharacterService.Delete, hid2, Endpoint.concat,
            Endpoint.id_pos _ _ hch]
          split <;> simp [errCausePreserved, Kerr.cause]
  refine ⟨hwrapped, ?_, ?_, ?_, ?_, ?_, ?_, ?_, ?_, ?_, ?_, ?_, ?_, ?_, ?_,
    ?_, ?_, ?_, ?_, ?_⟩
  · cases sync <;>
      simp [CharacterService.Index, hid, Endpoint.concat, Endpoint.sync,
        hIdx, indexWrapErr]
  · simp [indexWrapErr, Kerr.cause]
  · refine ⟨"cannot get Character Index from Campaign (ID: ",
      "): " ++ err.message, ?_⟩
    simp [indexWrapErr, Kerr.message, String.append_assoc]
  · simp [CharacterService.Get, hid, Endpoint.concat,
      Endpoint.id_pos _ _ hChar, hGet, getWrapErr]
  · simp [getWrapErr, Kerr.cause]
  · refine ⟨"cannot get Character (ID: " ++ toString charID
      ++ ") from Campaign (ID: ", "): " ++ err.message, ?_⟩
    simp [getWrapErr, Kerr.message, String.append_assoc]
  · refine ⟨"cannot get Character (ID: ",
      ") from Campaign (ID: " ++ toString campID ++ "): " ++ err.message, ?_⟩
    simp [getWrapErr, Kerr.message, String.append_assoc]
  · simp [CharacterService.Create, hid, Endpoint.concat,
      jsonMarshal_ok ch hName, hPost, createWrapErr]
  · simp [createWrapErr, Kerr.cause]
  · refine ⟨"cannot create Character (Name: ",
      ") for Campaign (ID: " ++ toString campID ++ "): " ++ err.message, ?_⟩
    simp [createWrapErr, Kerr.message, String.append_assoc]
  · refine ⟨"cannot create Character (Name: " ++ ch.name
      ++ ") for Campaign (ID: ", "): " ++ err.message, ?_⟩
    simp [createWrapErr, Kerr.message, String.append_assoc]
  · simp [CharacterService.Update, hid, Endpoint.concat,
      Endpoint.id_pos _ _ hChar, jsonMarshal_ok ch hName, hPut, updateWrapErr]
  · simp [updateWrapErr, Kerr.cause]
  · refine ⟨"cannot update Character (Name: ",
      ") for Campaign (ID: " ++ toString campID ++ "): '" ++ err.message ++ "'",
      ?_⟩
    simp [updateWrapErr, Kerr.message, String.append_assoc]
  · refine ⟨"cannot update Character (Name: " ++ ch.name
      ++ ") for Campaign (ID: ", "): '" ++ err.message ++ "'", ?_⟩
    simp [updateWrapErr, Kerr.message, String.append_assoc]
  · simp [CharacterService.Delete, hid, Endpoint.concat,
      Endpoint.id_pos _ _ hChar, hDel, deleteWrapErr]
  · simp [deleteWrapErr, Kerr.cause]
  · refine ⟨"cannot delete Character (ID: " ++ toString charID
      ++ ") for Campaign (ID: ", "): " ++ err.message, ?_⟩
    simp [deleteWrapErr, Kerr.message, String.append_assoc]
  · refine ⟨"cannot delete Character (ID: ",
      ") for Campaign (ID: " ++ toString campID ++ "): " ++ err.message, ?_⟩
    simp [deleteWrapErr, Kerr.message, String.append_assoc]

/-- C3 amended-claim witness: the 404 transport at campaign 5, character 9. -/
theorem errors_preserve_cause_and_context_witness :
    allErrorsWrapped cs404 ∧
    (cs404.Index 5 none).1 = .error (indexWrapErr 5 err404) ∧
    (indexWrapErr 5 err404).cause = some err404 ∧
    mentions (indexWrapErr 5 err404).message (toString (5 : Int)) ∧
    (cs404.Get 5 9).1 = .error (getWrapErr 5 9 err404) ∧
    (getWrapErr 5 9 err404).cause = some err404 ∧
    mentions (getWrapErr 5 9 err404).message (toString (5 : Int)) ∧
    mentions (getWrapErr 5 9 err404).message (toString (9 : Int)) ∧
    (cs404.Create 5 chJon).1 = .error (createWrapErr 5 chJon.name err404) ∧
    (createWrapErr 5 chJon.name err404).cause = some err404 ∧
    mentions (createWrapErr 5 chJon.name err404).message chJon.name ∧
    mentions (createWrapErr 5 chJon.name err404).message (toString (5 : Int)) ∧
    (cs404.Update 5 9 chJon).1 = .error (updateWrapErr 5 chJon.name err404) ∧
    (updateWrapErr 5 chJon.name err404).cause = some err404 ∧
    mentions (updateWrapErr 5 chJon.name err404).message chJon.name ∧
    mentions (updateWrapErr 5 chJon.name err404).message (toString (5 : Int)) ∧
    (cs404.Delete 5 9).1 = .error (deleteWrapErr 5 9 err404) ∧
    (deleteWrapErr 5 9 err404).cause = some err404 ∧
    mentions (deleteWrapErr 5 9 err404).message (toString (5 : Int)) ∧
    mentions (deleteWrapErr 5 9 err404).message (toString (9 : Int)) :=
  errors_preserve_cause_and_context cs404 5 9 none chJon err404 (by decide)
    (by decide) (by decide) (fun _ => rfl) (fun _ => rfl) (fun _ _ => rfl)
    (fun _ _ => rfl) (fun _ => rfl)

end Kanka
